import Mathlib

/-!
Verification of the task-lifecycle, cancellation and real-time broadcast core of
the personal-Q backend (FastAPI + Celery + WebSocket), against its design notes.

Shallow embedding: each relevant Python function is translated to a Lean
function over an explicit state.  Database rows become Lean structures, clock
reads (utcnow / utcnow_naive) become explicit Nat parameters, the Celery /
CrewAI / JWT collaborators become explicit parameters, and every WebSocket
broadcast performed during an operation is collected into a returned list.
-/

namespace PersonalQ

/-- From app/models/task.py: the TaskStatus enum. -/
inductive TaskStatus where
  | pending
  | running
  | completed
  | failed
  | cancelled
deriving DecidableEq, Repr

/-- The .value string of each TaskStatus member (app/models/task.py). -/
def TaskStatus.value : TaskStatus → String
  | .pending => "pending"
  | .running => "running"
  | .completed => "completed"
  | .failed => "failed"
  | .cancelled => "cancelled"

/-- Terminal statuses per the design notes: COMPLETED, FAILED, CANCELLED. -/
def TaskStatus.isTerminal : TaskStatus → Bool
  | .completed => true
  | .failed => true
  | .cancelled => true
  | _ => false

/-- From app/models/task.py: the TaskPriority enum. -/
inductive TaskPriority where
  | low
  | medium
  | high
  | urgent
deriving DecidableEq, Repr

/-- The result dictionary returned by CrewService.execute_agent_task
(app/services/crew_service.py): a success flag plus optional error text and
optional output text.  Stored verbatim into Task.output_data by the worker. -/
structure ExecResult where
  success : Bool
  error : Option String := none
  output : Option String := none
deriving DecidableEq, Repr

/-- From app/models/task.py: the tasks row.  Datetimes are modelled as Nat
timestamps; JSON input_data is opaque here. -/
structure Task where
  id : String
  agent_id : String
  title : String
  description : Option String := none
  status : TaskStatus := .pending
  priority : TaskPriority := .medium
  input_data : String := ""
  output_data : Option ExecResult := none
  error_message : Option String := none
  celery_task_id : Option String := none
  execution_time_seconds : Option Int := none
  started_at : Option Nat := none
  completed_at : Option Nat := none
deriving DecidableEq, Repr

/-- From app/models/agent.py: the fields of the agents row that the worker
mutates (counters and last_active). -/
structure Agent where
  id : String
  tasks_completed : Nat := 0
  tasks_failed : Nat := 0
  last_active : Option Nat := none
deriving DecidableEq, Repr

/-- Payload dictionary passed to broadcast_event by the worker and the cancel
endpoint.  Fields that a given event type does not populate stay none. -/
structure EventPayload where
  task_id : String
  agent_id : String
  title : String
  status : String
  started_at : Option Nat := none
  output_data : Option ExecResult := none
  error_message : Option String := none
  error_type : Option String := none
  execution_time_seconds : Option Int := none
  completed_at : Option Nat := none
deriving DecidableEq, Repr

/-- One call to broadcast_event(event_type, data)
(app/routers/websocket.py line 220). -/
structure BroadcastCall where
  event_type : String
  data : EventPayload
deriving DecidableEq, Repr

/-- Outcome of the awaited CrewService.execute_agent_task call inside the
worker's try block: either it returned a result dictionary, or it raised an
exception whose str() is the given string. -/
inductive ExecOutcome where
  | ok (result : ExecResult)
  | exn (e : String)
deriving DecidableEq, Repr

/-- Everything a run of the worker leaves behind: the final task row (none if
no row was found), the final agent row, the broadcast_event calls made, and
whether the execution engine (CrewService) was invoked at all. -/
structure WorkerResult where
  task : Option Task
  agent : Option Agent
  events : List BroadcastCall
  engineInvoked : Bool
deriving DecidableEq, Repr

/-- From app/workers/tasks.py lines 80-172: the terminal phase of
execute_agent_task — what the worker writes over the current row state at its
terminal commit, given the outcome of the CrewService call.

The row parameter is the task object the commit writes to; the worker never
re-reads or checks row.status before writing (there is no check-before-write
in the source).  tComplete models the utcnow_naive() read used for
completed_at, tCalc the separate utcnow_naive() read used for the execution
time computation (line 96), tActive the read used for agent.last_active.
sanitize models the imported sanitize_error_for_client and classify models
classify_error_type (app/utils/security_helpers.py); both are collaborators
applied to the str() of the exception handed to them. -/
def workerFinish (row : Task) (agent : Agent) (outcome : ExecOutcome)
    (tComplete tCalc tActive : Nat)
    (sanitize classify : String → String) :
    Task × Agent × List BroadcastCall :=
  match outcome with
  | .ok result =>
    let task1 : Task := { row with
      status := if result.success then .completed else .failed,
      output_data := some result,
      completed_at := some tComplete }
    let task2 : Task :=
      if result.success then task1
      else { task1 with error_message := some (result.error.getD "Unknown error") }
    let task3 : Task :=
      match task2.started_at with
      | some s => { task2 with execution_time_seconds := some ((tCalc : Int) - (s : Int)) }
      | none => task2
    let agent1 : Agent :=
      if result.success then { agent with tasks_completed := agent.tasks_completed + 1 }
      else { agent with tasks_failed := agent.tasks_failed + 1 }
    let agent2 : Agent := { agent1 with last_active := some tActive }
    let sanitized_error : Option String :=
      if result.success then none
      else match task3.error_message with
        | some m => if m = "" then none else some (sanitize m)
        | none => none
    let etype : Option String :=
      if result.success then none
      else match task3.error_message with
        | some m => if m = "" then none else some (classify m)
        | none => none
    let event : BroadcastCall := {
      event_type := if result.success then "task_completed" else "task_failed",
      data := {
        task_id := task3.id,
        agent_id := task3.agent_id,
        title := task3.title,
        status := task3.status.value,
        output_data := task3.output_data,
        error_message := sanitized_error,
        error_type := etype,
        execution_time_seconds := task3.execution_time_seconds,
        completed_at := task3.completed_at } }
    (task3, agent2, [event])
  | .exn e =>
    let task1 : Task := { row with
      status := .failed,
      error_message := some e,
      completed_at := some tComplete }
    let agent1 : Agent := { agent with tasks_failed := agent.tasks_failed + 1 }
    let event : BroadcastCall := {
      event_type := "task_failed",
      data := {
        task_id := task1.id,
        agent_id := task1.agent_id,
        title := task1.title,
        status := "failed",
        error_message := some (sanitize e),
        error_type := some (classify e),
        completed_at := task1.completed_at } }
    (task1, agent1, [event])

/-- From app/workers/tasks.py lines 35-172: execute_agent_task.

Looks up the task row and agent row (passed here as the values the two SELECTs
return), then: missing task — return with no mutation; missing agent — mark
the task FAILED (note: no completed_at is written on this branch); otherwise
set the task RUNNING with started_at := tStart and
celery_task_id := requestId (self.request.id), broadcast task_started, invoke
the engine, and run the terminal phase (workerFinish) on the claimed row.
The source performs no status check before any of these writes. -/
def execute_agent_task (task? : Option Task) (agent? : Option Agent)
    (requestId : String) (tStart tComplete tCalc tActive : Nat)
    (outcome : ExecOutcome) (sanitize classify : String → String) :
    WorkerResult :=
  match task? with
  | none => { task := none, agent := agent?, events := [], engineInvoked := false }
  | some task =>
    match agent? with
    | none =>
      let task1 : Task := { task with status := .failed, error_message := some "Agent not found" }
      { task := some task1, agent := none, events := [], engineInvoked := false }
    | some agent =>
      let claimed : Task := { task with
        status := .running, started_at := some tStart, celery_task_id := some requestId }
      let startedEvent : BroadcastCall := {
        event_type := "task_started",
        data := {
          task_id := claimed.id,
          agent_id := claimed.agent_id,
          title := claimed.title,
          status := "running",
          started_at := some tStart } }
      let fin := workerFinish claimed agent outcome tComplete tCalc tActive sanitize classify
      { task := some fin.1, agent := some fin.2.1,
        events := startedEvent :: fin.2.2, engineInvoked := true }

/-- Outcome of the cancel endpoint (app/routers/tasks.py lines 144-222):
404, 400 naming the current status, 403, or success. -/
inductive CancelResult where
  | notFound
  | notCancellable (current : TaskStatus)
  | forbidden
  | cancelled (task : Task)
deriving DecidableEq, Repr

/-- The detail string of the 400 response
(app/routers/tasks.py lines 183-186). -/
def cancelErrorDetail (st : TaskStatus) : String :=
  "Cannot cancel task with status " ++ st.value

/-- What a call to the cancel endpoint leaves behind: the HTTP-level result,
the final row state, the celery id a revoke was requested for (if any), and
the broadcast_event calls made. -/
structure CancelRun where
  result : CancelResult
  task : Option Task
  revoked : Option String
  events : List BroadcastCall
deriving DecidableEq, Repr

/-- From app/routers/tasks.py lines 144-222: cancel_task.

The locking SELECT filters on status IN (PENDING, RUNNING); a row outside that
set falls to the 400 branch naming its current status, with no mutation and no
broadcast.  ownershipOk models verify_task_ownership(task, current_user).
On success: best-effort revoke of celery_task_id when set, then
status := CANCELLED, completed_at := now, commit, broadcast task_cancelled. -/
def cancel_task (task? : Option Task) (ownershipOk : Bool) (now : Nat) : CancelRun :=
  match task? with
  | none => { result := .notFound, task := none, revoked := none, events := [] }
  | some t =>
    if t.status = .pending ∨ t.status = .running then
      if ownershipOk then
        let t1 : Task := { t with status := .cancelled, completed_at := some now }
        let event : BroadcastCall := {
          event_type := "task_cancelled",
          data := {
            task_id := t1.id,
            agent_id := t1.agent_id,
            title := t1.title,
            status := "cancelled",
            completed_at := some now } }
        { result := .cancelled t1, task := some t1,
          revoked := t.celery_task_id, events := [event] }
      else
        { result := .forbidden, task := some t, revoked := none, events := [] }
    else
      { result := .notCancellable t.status, task := some t, revoked := none, events := [] }

/-- From app/schemas/task.py: TaskUpdate.  A none field models a field the
client left unset (model_dump with exclude_unset drops it). -/
structure TaskUpdate where
  title : Option String := none
  description : Option String := none
  priority : Option TaskPriority := none
  status : Option TaskStatus := none
deriving DecidableEq, Repr

/-- Outcome of the PATCH endpoint (app/routers/tasks.py lines 107-141). -/
inductive UpdateResult where
  | notFound
  | updated (task : Task)
deriving DecidableEq, Repr

/-- Whether the PATCH endpoint succeeded. -/
def UpdateResult.succeeded : UpdateResult → Bool
  | .updated _ => true
  | .notFound => false

/-- From app/routers/tasks.py lines 107-141: update_task.

Every provided field in the whitelist (title, description, priority, status)
is applied with setattr, with no validation of the status edge; fields outside
the whitelist are only logged, but TaskUpdate has no such field.  Returns 404
when the row is missing. -/
def update_task (task? : Option Task) (upd : TaskUpdate) : UpdateResult × Option Task :=
  match task? with
  | none => (.notFound, none)
  | some t =>
    let t1 : Task := { t with
      title := upd.title.getD t.title,
      description := match upd.description with
        | some d => some d
        | none => t.description,
      priority := upd.priority.getD t.priority,
      status := upd.status.getD t.status }
    (.updated t1, some t1)

/-! ## Connection Manager (app/routers/websocket.py lines 26-69)

WebSocket handles are modelled as Nat ids.  A Python set is modelled as a
List Nat manipulated only through setAdd / setDiscard, which preserve the
set semantics (no duplicate insertion; iteration visits each element once).
The subscriptions dict is an association list in insertion order. -/

/-- Python set.add: no-op when the element is already present. -/
def setAdd (s : List Nat) (x : Nat) : List Nat :=
  if x ∈ s then s else s ++ [x]

/-- Python set.discard: remove the element if present. -/
def setDiscard (s : List Nat) (x : Nat) : List Nat :=
  s.filter (fun y => y != x)

/-- Python dict lookup d.get(k) over the association-list model. -/
def dictGet (d : List (String × List Nat)) (k : String) : Option (List Nat) :=
  (d.find? (fun p => p.1 = k)).map Prod.snd

/-- Python dict store d[k] = v over the association-list model: overwrite in
place when the key exists, append otherwise. -/
def dictSet (d : List (String × List Nat)) (k : String) (v : List Nat) :
    List (String × List Nat) :=
  if (d.find? (fun p => p.1 = k)).isSome then
    d.map (fun p => if p.1 = k then (k, v) else p)
  else
    d ++ [(k, v)]

/-- From app/routers/websocket.py lines 26-31: ConnectionManager state. -/
structure ConnectionManager where
  active_connections : List Nat := []
  subscriptions : List (String × List Nat) := []
deriving DecidableEq, Repr

/-- ConnectionManager.disconnect (lines 38-43): remove the websocket from the
live set and from every subscription set. -/
def ConnectionManager.disconnect (m : ConnectionManager) (ws : Nat) : ConnectionManager :=
  { active_connections := setDiscard m.active_connections ws,
    subscriptions := m.subscriptions.map (fun p => (p.1, setDiscard p.2 ws)) }

/-- ConnectionManager.subscribe (lines 45-49): create the topic's set if
missing, then add the websocket to it. -/
def ConnectionManager.subscribe (m : ConnectionManager) (ws : Nat) (event_type : String) :
    ConnectionManager :=
  let s := (dictGet m.subscriptions event_type).getD []
  { m with subscriptions := dictSet m.subscriptions event_type (setAdd s ws) }

/-- The per-connection send loop of ConnectionManager.broadcast
(lines 56-65): iterate over the topic's subscribers; a successful send_json
is recorded in order, a raising send adds the connection to the disconnected
accumulator and the loop continues.  sendOk models whether send_json on that
connection succeeds. -/
def broadcastLoop (subs : List Nat) (sendOk : Nat → Bool) : List Nat × List Nat :=
  subs.foldl
    (fun acc c => if sendOk c then (acc.1 ++ [c], acc.2) else (acc.1, acc.2 ++ [c]))
    ([], [])

/-- The cleanup loop at the end of ConnectionManager.broadcast
(lines 67-69): disconnect every connection collected as failed. -/
def disconnectAll (m : ConnectionManager) (failed : List Nat) : ConnectionManager :=
  failed.foldl (fun acc c => acc.disconnect c) m

/-- ConnectionManager.broadcast (lines 51-69): no subscribers registered for
the topic means an early return; otherwise run the send loop, then disconnect
every connection whose send failed.  Returns the new manager and the list of
connections that received the event, in delivery order. -/
def ConnectionManager.broadcast (m : ConnectionManager) (event_type : String)
    (sendOk : Nat → Bool) : ConnectionManager × List Nat :=
  match dictGet m.subscriptions event_type with
  | none => (m, [])
  | some subs =>
    let loopResult := broadcastLoop subs sendOk
    (disconnectAll m loopResult.2, loopResult.1)

/-! ## WebSocket authentication handshake (app/routers/websocket.py lines 109-217) -/

/-- From app/routers/websocket.py line 22. -/
def MAX_MESSAGE_SIZE : Nat := 64 * 1024

/-- From app/routers/websocket.py line 23: declared as the time allowed for
authentication after connection.  No other line of the source reads this
constant. -/
def AUTH_TIMEOUT_SECONDS : Nat := 10

/-- The WebSocket close code status.WS_1008_POLICY_VIOLATION. -/
def WS_1008_POLICY_VIOLATION : Nat := 1008

/-- Result of jwt.decode on a token (external collaborator). -/
inductive JwtDecodeResult where
  | expired
  | invalid
  | valid (email : String)
deriving DecidableEq, Repr

/-- From app/routers/websocket.py lines 75-106: verify_websocket_token.
None token fails; a decoded payload is accepted only when its email equals
settings.allowed_email; expired or invalid tokens fail. -/
def verify_websocket_token (token : Option String)
    (decode : String → JwtDecodeResult) (allowedEmail : String) : Option String :=
  match token with
  | none => none
  | some tok =>
    match decode tok with
    | .valid email => if email = allowedEmail then some email else none
    | .expired => none
    | .invalid => none

/-- json.loads plus field extraction on the first client frame: either the
text is not valid JSON, or it carries an action and an optional token. -/
inductive AuthParse where
  | malformed
  | parsed (action : String) (token : Option String)
deriving DecidableEq, Repr

/-- The first frame the client sends: its text length and its parse. -/
structure FirstMessage where
  length : Nat
  parse : AuthParse
deriving DecidableEq, Repr

/-- How the authentication phase of websocket_endpoint ends. -/
inductive HandshakeOutcome where
  | awaitingAuth
  | closed (code : Nat) (reason : String)
  | authenticated (email : String)
deriving DecidableEq, Repr

/-- Whether the handshake outcome closed the connection. -/
def HandshakeOutcome.closesConnection : HandshakeOutcome → Bool
  | .closed _ _ => true
  | _ => false

/-- From app/routers/websocket.py lines 109-175: the authentication phase of
websocket_endpoint.

The endpoint accepts the transport and then awaits websocket.receive_text()
bare — the await is not wrapped in any timeout, and AUTH_TIMEOUT_SECONDS is
never referenced — so a client that never sends a first frame (modelled by
the none argument) leaves the coroutine suspended: outcome awaitingAuth, and
no close frame is ever sent.  When a frame does arrive: over-size frames,
non-JSON frames, frames whose action is not authenticate, and frames whose
token fails verify_websocket_token are each answered with an error and a
close(1008); a valid token yields the authenticated acknowledgement. -/
def websocket_handshake (firstMsg : Option FirstMessage)
    (decode : String → JwtDecodeResult) (allowedEmail : String) : HandshakeOutcome :=
  match firstMsg with
  | none => .awaitingAuth
  | some msg =>
    if msg.length > MAX_MESSAGE_SIZE then
      .closed WS_1008_POLICY_VIOLATION "Message too large"
    else
      match msg.parse with
      | .malformed => .closed WS_1008_POLICY_VIOLATION "Invalid authentication format"
      | .parsed action token =>
        if action ≠ "authenticate" then
          .closed WS_1008_POLICY_VIOLATION "Authentication required"
        else
          match verify_websocket_token token decode allowedEmail with
          | none => .closed WS_1008_POLICY_VIOLATION "Authentication failed"
          | some email => .authenticated email

/-! ## Concrete instances used to evaluate the operations -/

/-- A concrete agent row. -/
def sampleAgent : Agent := { id := "A1" }

/-- A freshly created task row: status PENDING, no timestamps beyond
creation, no job handle (app/routers/tasks.py lines 41-49). -/
def samplePendingTask : Task := { id := "T1", agent_id := "A1", title := "demo" }

/-- A task that was cancelled before any worker claimed it: CANCELLED with
completed_at set by the cancel endpoint and no job handle. -/
def sampleCancelledTask : Task :=
  { samplePendingTask with status := .cancelled, completed_at := some 3 }

/-- A completed task row. -/
def sampleCompletedTask : Task :=
  { id := "T3", agent_id := "A1", title := "demo",
    status := .completed, started_at := some 1, completed_at := some 4 }

/-- The row of a task that a worker claimed (RUNNING, started_at and job
handle set) and that the cancel endpoint then moved to CANCELLED
mid-execution: only status and completed_at differ from the claimed state. -/
def sampleMidflightCancelledRow : Task :=
  { id := "T2", agent_id := "A1", title := "demo", status := .cancelled,
    started_at := some 5, celery_task_id := some "celery-2", completed_at := some 7 }

/-- A concrete stand-in for sanitize_error_for_client: the generic message
the real helper returns once a redaction fired or the text is over 200
characters (app/utils/security_helpers.py lines 56-58), which is its output
on every input used below. -/
def genericSanitizer : String → String :=
  fun _ => "An error occurred. Please try again or contact support."

/-- A concrete stand-in for classify_error_type: its fall-through answer
(app/utils/security_helpers.py line 194). -/
def genericClassifier : String → String := fun _ => "unknown_error"

/-- A raw exception text of the kind sanitize_error_for_client redacts: it
contains a file path and a line number. -/
def rawExceptionText : String := "ValueError at /app/workers/tasks.py line 42"

/-- A token decoder that rejects everything. -/
def rejectAllTokens : String → JwtDecodeResult := fun _ => .invalid

/-- A concrete manager: connections 1 and 2, both live and both subscribed
to the task_completed topic. -/
def sampleManager : ConnectionManager :=
  { active_connections := [1, 2], subscriptions := [("task_completed", [1, 2])] }

/-!
# Theorems
-/

/-- C1 counterexample: a task cancelled before any worker claimed it (status
CANCELLED, no job handle) is not abandoned when its id is dequeued — the
worker claims it anyway: the execution engine is invoked, started_at and the
job handle are set, and the run ends COMPLETED, contradicting the claim that
a non-PENDING task is left unmutated. -/
theorem c1_cancelled_task_is_executed :
    (execute_agent_task (some sampleCancelledTask) (some sampleAgent) "celery-1"
      5 9 9 9 (.ok { success := true, output := some "out" })
      genericSanitizer genericClassifier).engineInvoked = true ∧
    ((execute_agent_task (some sampleCancelledTask) (some sampleAgent) "celery-1"
      5 9 9 9 (.ok { success := true, output := some "out" })
      genericSanitizer genericClassifier).task.map Task.status) = some .completed ∧
    ((execute_agent_task (some sampleCancelledTask) (some sampleAgent) "celery-1"
      5 9 9 9 (.ok { success := true, output := some "out" })
      genericSanitizer genericClassifier).task.bind Task.started_at) = some 5 ∧
    ((execute_agent_task (some sampleCancelledTask) (some sampleAgent) "celery-1"
      5 9 9 9 (.ok { success := true, output := some "out" })
      genericSanitizer genericClassifier).task.bind Task.celery_task_id) = some "celery-1" ∧
    sampleCancelledTask.status = .cancelled :=
  ⟨rfl, rfl, rfl, rfl, rfl⟩

/-- C1 (amended): execute_agent_task abandons the job without mutation only
when the task row is missing; for any existing task with an existing agent —
whatever the task's current status, CANCELLED included — it sets started_at
and the job handle, invokes the execution engine, and drives the task to a
terminal status. -/
theorem c1_worker_claims_regardless_of_status (task : Task) (agent : Agent)
    (requestId : String) (tStart tComplete tCalc tActive : Nat)
    (outcome : ExecOutcome) (san cls : String → String) :
    (let r := execute_agent_task (some task) (some agent) requestId
        tStart tComplete tCalc tActive outcome san cls
     r.engineInvoked = true ∧
     ∃ t', r.task = some t' ∧ t'.started_at = some tStart ∧
       t'.celery_task_id = some requestId ∧ t'.status.isTerminal = true) ∧
    (let r0 := execute_agent_task none (some agent) requestId
        tStart tComplete tCalc tActive outcome san cls
     r0.engineInvoked = false ∧ r0.task = none ∧ r0.events = []) := by
  refine ⟨?_, by simp [execute_agent_task]⟩
  rcases outcome with result | e
  · obtain ⟨succ, err, out⟩ := result
    cases succ <;>
      simp [execute_agent_task, workerFinish, TaskStatus.isTerminal]
  · simp [execute_agent_task, workerFinish, TaskStatus.isTerminal]

/-- C2 counterexample: the row of a task cancelled mid-execution is
overwritten by the worker's completion attempt — workerFinish writes status
COMPLETED over CANCELLED instead of no-opping. -/
theorem c2_completion_overwrites_cancelled :
    (workerFinish sampleMidflightCancelledRow sampleAgent
      (.ok { success := true, output := some "done" }) 9 9 9
      genericSanitizer genericClassifier).1.status = .completed ∧
    sampleMidflightCancelledRow.status = .cancelled :=
  ⟨rfl, rfl⟩

/-- C2 (amended): the worker's terminal transition never checks the current
row status before writing: whatever the row holds — CANCELLED included — the
written status is COMPLETED on a successful result and FAILED on an
unsuccessful result or an exception. -/
theorem c2_terminal_write_is_unconditional (row : Task) (agent : Agent)
    (outcome : ExecOutcome) (tComplete tCalc tActive : Nat)
    (san cls : String → String) :
    (workerFinish row agent outcome tComplete tCalc tActive san cls).1.status =
      (match outcome with
       | .ok result => if result.success then .completed else .failed
       | .exn _ => .failed) := by
  rcases outcome with result | e
  · obtain ⟨succ, err, out⟩ := result
    cases succ <;> cases hst : row.started_at <;> simp [workerFinish, hst]
  · simp [workerFinish]

/-- C3 counterexample: the task-update endpoint applies the illegal edge
COMPLETED to PENDING without any error and mutates the row — no
InvalidTransition failure exists in the code. -/
theorem c3_update_allows_illegal_edge :
    (update_task (some sampleCompletedTask) { status := some .pending }).1.succeeded = true ∧
    ((update_task (some sampleCompletedTask) { status := some .pending }).2.map Task.status)
      = some .pending ∧
    sampleCompletedTask.status = .completed :=
  ⟨rfl, rfl, rfl⟩

/-- C3 (amended): only the cancel endpoint validates the current status; the
task-update endpoint applies any requested status to any existing task —
every edge, legal or not, succeeds with the row mutated and no error — and
the worker likewise transitions without checking the prior status. -/
theorem c3_update_status_unrestricted (t : Task) (s : TaskStatus) (upd : TaskUpdate) :
    (update_task (some t) { upd with status := some s }).1.succeeded = true ∧
    ((update_task (some t) { upd with status := some s }).2.map Task.status) = some s := by
  simp [update_task, UpdateResult.succeeded]

/-- C9 counterexample: on the exception path the worker sets completed_at
but never sets execution_seconds — the run ends FAILED with
execution_time_seconds still null. -/
theorem c9_exception_path_drops_execution_seconds :
    ((execute_agent_task (some samplePendingTask) (some sampleAgent) "celery-9"
      1 2 3 4 (.exn "boom") genericSanitizer genericClassifier).task.bind
        Task.execution_time_seconds) = none ∧
    ((execute_agent_task (some samplePendingTask) (some sampleAgent) "celery-9"
      1 2 3 4 (.exn "boom") genericSanitizer genericClassifier).task.bind
        Task.completed_at) = some 2 ∧
    ((execute_agent_task (some samplePendingTask) (some sampleAgent) "celery-9"
      1 2 3 4 (.exn "boom") genericSanitizer genericClassifier).task.map
        Task.status) = some .failed :=
  ⟨rfl, rfl, rfl⟩

/-- C9 (amended): when the CrewService call returns a result the worker sets
both completed_at and execution_seconds at the terminal transition, the
latter computed as a fresh clock reading minus started_at; when the call
raises, the worker sets completed_at only and leaves execution_seconds
untouched. -/
theorem c9_execution_seconds_only_on_result_path (task : Task) (agent : Agent)
    (requestId : String) (tStart tComplete tCalc tActive : Nat)
    (result : ExecResult) (e : String) (san cls : String → String) :
    (let r := execute_agent_task (some task) (some agent) requestId
        tStart tComplete tCalc tActive (.ok result) san cls
     r.task.bind Task.completed_at = some tComplete ∧
     r.task.bind Task.execution_time_seconds = some ((tCalc : Int) - (tStart : Int))) ∧
    (let r := execute_agent_task (some task) (some agent) requestId
        tStart tComplete tCalc tActive (.exn e) san cls
     r.task.bind Task.completed_at = some tComplete ∧
     r.task.bind Task.execution_time_seconds = task.execution_time_seconds) := by
  constructor
  · obtain ⟨succ, err, out⟩ := result
    cases succ <;> simp [execute_agent_task, workerFinish]
  · simp [execute_agent_task, workerFinish]

/-- C4 counterexample: when the agent row is missing, the worker marks the
task FAILED — a terminal status — without ever setting completed_at, so the
invariant that completed_at is non-null iff the status is terminal is broken
after this operation. -/
theorem c4_agent_missing_breaks_invariant :
    ((execute_agent_task (some samplePendingTask) none "celery-4" 1 2 3 4
      (.ok { success := true }) genericSanitizer genericClassifier).task.map
        Task.status) = some .failed ∧
    ((execute_agent_task (some samplePendingTask) none "celery-4" 1 2 3 4
      (.ok { success := true }) genericSanitizer genericClassifier).task.bind
        Task.completed_at) = none ∧
    TaskStatus.failed.isTerminal = true :=
  ⟨rfl, rfl, rfl⟩

/-- C4 (amended): the worker's normal terminal transitions (task and agent
both present, result or exception) and the cancel endpoint's transition both
set completed_at together with the terminal status; the invariant fails only
on the worker's agent-missing branch, which writes FAILED and leaves
completed_at null. -/
theorem c4_completed_at_on_main_paths :
    (∀ (task : Task) (agent : Agent) (requestId : String)
       (tStart tComplete tCalc tActive : Nat) (outcome : ExecOutcome)
       (san cls : String → String),
       ∃ t', (execute_agent_task (some task) (some agent) requestId
           tStart tComplete tCalc tActive outcome san cls).task = some t' ∧
         t'.completed_at = some tComplete ∧ t'.status.isTerminal = true) ∧
    (∀ (t : Task) (now : Nat), t.status = .pending ∨ t.status = .running →
       ∃ t', (cancel_task (some t) true now).task = some t' ∧
         t'.completed_at = some now ∧ t'.status = .cancelled) := by
  constructor
  · intro task agent requestId tStart tComplete tCalc tActive outcome san cls
    rcases outcome with result | e
    · obtain ⟨succ, err, out⟩ := result
      cases succ <;> simp [execute_agent_task, workerFinish, TaskStatus.isTerminal]
    · simp [execute_agent_task, workerFinish, TaskStatus.isTerminal]
  · intro t now h
    rcases h with h | h <;> simp [cancel_task, h]

/-- C4 witness: the amended theorem applied to cancelling a concrete PENDING
task. -/
theorem c4_witness :
    ((cancel_task (some samplePendingTask) true 6).task.bind Task.completed_at)
      = some 6 ∧
    ((cancel_task (some samplePendingTask) true 6).task.map Task.status)
      = some .cancelled := by
  obtain ⟨t', ht, hc, hs⟩ :=
    c4_completed_at_on_main_paths.2 samplePendingTask 6 (Or.inl rfl)
  rw [ht]
  exact ⟨by simp [hc], by simp [hs]⟩

/-- C5 counterexample: on the exception path the worker stores the raw
exception text verbatim in the task's error field — here a text containing a
file path and a line number, which sanitize_error_for_client would redact to
its generic message — while only the broadcast payload carries the sanitized
form. -/
theorem c5_raw_error_persisted_verbatim :
    ((execute_agent_task (some samplePendingTask) (some sampleAgent) "celery-5"
      1 2 3 4 (.exn rawExceptionText) genericSanitizer genericClassifier).task.bind
        Task.error_message) = some rawExceptionText ∧
    genericSanitizer rawExceptionText
      = "An error occurred. Please try again or contact support." ∧
    ((execute_agent_task (some samplePendingTask) (some sampleAgent) "celery-5"
      1 2 3 4 (.exn rawExceptionText) genericSanitizer genericClassifier).events.getLast?.map
        (fun ev => ev.data.error_message))
      = some (some (genericSanitizer rawExceptionText)) :=
  ⟨rfl, rfl, rfl⟩

/-- C5 (amended): for every failing execution the error text broadcast to
live connections is the output of the sanitizer, but the task record's error
field receives the raw exception text verbatim (the raw text is additionally
logged server-side). -/
theorem c5_sanitized_broadcast_raw_persisted (task : Task) (agent : Agent)
    (requestId : String) (tStart tComplete tCalc tActive : Nat) (e : String)
    (san cls : String → String) :
    (((execute_agent_task (some task) (some agent) requestId
        tStart tComplete tCalc tActive (.exn e) san cls).task.bind
          Task.error_message) = some e) ∧
    (((execute_agent_task (some task) (some agent) requestId
        tStart tComplete tCalc tActive (.exn e) san cls).events.getLast?.map
          (fun ev => (ev.event_type, ev.data.error_message)))
      = some ("task_failed", some (san e))) :=
  ⟨rfl, rfl⟩

/-- C6: cancelling a task whose status is terminal fails with the 400
response naming the current status and performs no mutation and no
broadcast; in particular a second cancel of a just-cancelled task returns
that failure for status CANCELLED with the row left as the first cancel
wrote it and no duplicate cancellation event. -/
theorem c6_cancel_terminal_rejected (t p : Task) (ownershipOk : Bool)
    (now now2 : Nat) (hterm : t.status.isTerminal = true)
    (hp : p.status = .pending ∨ p.status = .running) :
    cancel_task (some t) ownershipOk now =
      { result := .notCancellable t.status, task := some t,
        revoked := none, events := [] } ∧
    cancel_task ((cancel_task (some p) true now).task) true now2 =
      { result := .notCancellable .cancelled,
        task := (cancel_task (some p) true now).task,
        revoked := none, events := [] } := by
  constructor
  · have hns : ¬ (t.status = .pending ∨ t.status = .running) := by
      intro hcon
      rcases hcon with h | h <;> rw [h] at hterm <;>
        simp [TaskStatus.isTerminal] at hterm
    simp [cancel_task, hns]
  · rcases hp with h | h <;> simp [cancel_task, h]

/-- C6 witness: the theorem applied to a concrete COMPLETED task and a
concrete double cancel of a PENDING task. -/
theorem c6_witness :
    cancel_task (some sampleCompletedTask) true 5 =
      { result := .notCancellable .completed, task := some sampleCompletedTask,
        revoked := none, events := [] } ∧
    cancel_task ((cancel_task (some samplePendingTask) true 5).task) true 6 =
      { result := .notCancellable .cancelled,
        task := (cancel_task (some samplePendingTask) true 5).task,
        revoked := none, events := [] } :=
  c6_cancel_terminal_rejected sampleCompletedTask samplePendingTask true 5 6
    rfl (Or.inl rfl)

/-- C7: a connection that never sends a first frame is never closed — the
handshake stays suspended awaiting the frame, because the receive is not
bounded by any timeout even though AUTH_TIMEOUT_SECONDS is declared as 10;
the claimed policy-violation close after the window does not happen. -/
theorem c7_auth_timeout_never_enforced :
    websocket_handshake none rejectAllTokens "user@example.com" = .awaitingAuth ∧
    (websocket_handshake none rejectAllTokens "user@example.com").closesConnection
      = false ∧
    AUTH_TIMEOUT_SECONDS = 10 :=
  ⟨rfl, rfl, rfl⟩

/-! Helper lemmas about the set / dict model of the ConnectionManager. -/

/-- The send loop partitions the subscriber set into delivered and failed,
preserving iteration order. -/
theorem broadcastLoop_eq (subs : List Nat) (sendOk : Nat → Bool) :
    broadcastLoop subs sendOk =
      (subs.filter sendOk, subs.filter (fun c => !(sendOk c))) := by
  have aux : ∀ (l : List Nat) (acc : List Nat × List Nat),
      l.foldl (fun acc c =>
        if sendOk c then (acc.1 ++ [c], acc.2) else (acc.1, acc.2 ++ [c])) acc =
      (acc.1 ++ l.filter sendOk, acc.2 ++ l.filter (fun c => !(sendOk c))) := by
    intro l
    induction l with
    | nil => intro acc; simp
    | cons x xs ih =>
      intro acc
      cases h : sendOk x <;>
        simp [List.foldl_cons, h, ih, List.filter_cons]
  simpa [broadcastLoop] using aux subs ([], [])

/-- Membership after a set discard. -/
theorem mem_setDiscard (s : List Nat) (x y : Nat) :
    y ∈ setDiscard s x ↔ y ∈ s ∧ y ≠ x := by
  simp [setDiscard, List.mem_filter]

/-- An element is in its own set add. -/
theorem mem_setAdd_self (s : List Nat) (x : Nat) : x ∈ setAdd s x := by
  by_cases h : x ∈ s <;> simp [setAdd, h]

/-- Adding a present element is a no-op. -/
theorem setAdd_of_mem (s : List Nat) (x : Nat) (h : x ∈ s) : setAdd s x = s := by
  simp [setAdd, h]

/-- Set add preserves the no-duplicates invariant of the Python set model. -/
theorem setAdd_nodup (s : List Nat) (x : Nat) (h : s.Nodup) : (setAdd s x).Nodup := by
  by_cases hx : x ∈ s
  · simpa [setAdd, hx] using h
  · simp [setAdd, hx, List.nodup_append, h]

/-- Membership in the live set after the cleanup loop. -/
theorem mem_active_disconnectAll (L : List Nat) :
    ∀ (m : ConnectionManager) (c : Nat),
      c ∈ (disconnectAll m L).active_connections ↔
        c ∈ m.active_connections ∧ c ∉ L := by
  induction L with
  | nil => intro m c; simp [disconnectAll]
  | cons x xs ih =>
    intro m c
    have hstep : disconnectAll m (x :: xs) = disconnectAll (m.disconnect x) xs := rfl
    rw [hstep, ih]
    simp only [ConnectionManager.disconnect, mem_setDiscard, List.mem_cons, not_or]
    tauto

/-- A connection still present in some subscription set after the cleanup
loop was not among the disconnected and was subscribed before. -/
theorem mem_snd_disconnectAll (L : List Nat) :
    ∀ (m : ConnectionManager) (p' : String × List Nat),
      p' ∈ (disconnectAll m L).subscriptions → ∀ x, x ∈ p'.2 →
      x ∉ L ∧ ∃ p, p ∈ m.subscriptions ∧ p.1 = p'.1 ∧ x ∈ p.2 := by
  induction L with
  | nil =>
    intro m p' hp' x hx
    exact ⟨List.not_mem_nil x, p', hp', rfl, hx⟩
  | cons y ys ih =>
    intro m p' hp' x hx
    obtain ⟨hnot, p, hpmem, hfst, hxp⟩ := ih (m.disconnect y) p' hp' x hx
    rcases List.mem_map.mp hpmem with ⟨q, hq, hq2⟩
    subst hq2
    have hxq := (mem_setDiscard _ _ _).mp hxp
    refine ⟨?_, q, hq, hfst, hxq.1⟩
    simp only [List.mem_cons, not_or]
    exact ⟨hxq.2, hnot⟩

/-- Dict lookup commutes with mapping a function over the values. -/
theorem dictGet_mapSnd (d : List (String × List Nat)) (f : List Nat → List Nat)
    (k : String) :
    dictGet (d.map (fun p => (p.1, f p.2))) k = (dictGet d k).map f := by
  induction d with
  | nil => rfl
  | cons p d ih =>
    by_cases h : p.1 = k
    · simp [dictGet, List.find?, h]
    · simpa [dictGet, List.find?, h] using ih

/-- The topic set survives the cleanup loop, filtered of the disconnected. -/
theorem dictGet_disconnectAll_of (L : List Nat) :
    ∀ (m : ConnectionManager) (k : String) (s : List Nat),
      dictGet m.subscriptions k = some s →
      ∃ s', dictGet (disconnectAll m L).subscriptions k = some s' ∧
        ∀ x, x ∈ s' ↔ x ∈ s ∧ x ∉ L := by
  induction L with
  | nil =>
    intro m k s hs
    exact ⟨s, hs, by simp⟩
  | cons y ys ih =>
    intro m k s hs
    have hd : dictGet (m.disconnect y).subscriptions k = some (setDiscard s y) := by
      have h2 := dictGet_mapSnd m.subscriptions (fun s0 => setDiscard s0 y) k
      rw [hs] at h2
      exact h2
    obtain ⟨s', hs', hmem⟩ := ih (m.disconnect y) k (setDiscard s y) hd
    refine ⟨s', hs', fun x => ?_⟩
    rw [hmem x, mem_setDiscard]
    simp only [List.mem_cons, not_or]
    tauto

/-- A successful dict lookup returns the value of a stored pair. -/
theorem dictGet_some_mem (d : List (String × List Nat)) (k : String)
    (s : List Nat) (h : dictGet d k = some s) : ∃ q ∈ d, q.2 = s := by
  unfold dictGet at h
  cases hf : d.find? (fun p => p.1 = k) with
  | none => rw [hf] at h; cases h
  | some q =>
    rw [hf] at h
    exact ⟨q, List.mem_of_find?_eq_some hf, by simpa using h⟩

/-- Looking up the key just stored yields the stored value. -/
theorem dictGet_dictSet (d : List (String × List Nat)) (k : String)
    (v : List Nat) : dictGet (dictSet d k v) k = some v := by
  by_cases hf : (d.find? (fun p => p.1 = k)).isSome
  · rw [dictSet, if_pos hf]
    obtain ⟨p, hp, hpk⟩ := List.find?_isSome.mp hf
    have hex : ∃ p ∈ d, p.1 = k := ⟨p, hp, by simpa using hpk⟩
    clear hf hp hpk
    induction d with
    | nil => rcases hex with ⟨p, hp, _⟩; cases hp
    | cons q d ih =>
      by_cases hq : q.1 = k
      · simp [dictGet, List.find?, hq]
      · have h' : ∃ p ∈ d, p.1 = k := by
          rcases hex with ⟨p, hp, hpk⟩
          rcases List.mem_cons.mp hp with rfl | hp'
          · exact absurd hpk hq
          · exact ⟨p, hp', hpk⟩
        simpa [dictGet, List.find?, hq] using ih h'
  · rw [dictSet, if_neg hf]
    have hnone := Option.not_isSome_iff_eq_none.mp hf
    clear hf
    induction d with
    | nil => simp [dictGet, List.find?]
    | cons q d ih =>
      have hq : ¬ (q.1 = k) := by
        intro hqk
        simp [List.find?, hqk] at hnone
      rw [List.find?_cons_of_neg _ (by simpa using hq)] at hnone
      simpa [dictGet, List.find?, hq] using ih hnone

/-- Storing the same key and value twice equals storing it once. -/
theorem dictSet_idem (d : List (String × List Nat)) (k : String)
    (v : List Nat) : dictSet (dictSet d k v) k v = dictSet d k v := by
  by_cases hf : (d.find? (fun p => p.1 = k)).isSome
  · have hd1 : dictSet d k v = d.map (fun p => if p.1 = k then (k, v) else p) := by
      rw [dictSet, if_pos hf]
    obtain ⟨p, hp, hpk⟩ := List.find?_isSome.mp hf
    have hf2 : ((d.map (fun p => if p.1 = k then (k, v) else p)).find?
        (fun p => p.1 = k)).isSome := by
      apply List.find?_isSome.mpr
      refine ⟨(k, v), List.mem_map.mpr ⟨p, hp, ?_⟩, by simp⟩
      simp [show p.1 = k from by simpa using hpk]
    rw [hd1, dictSet, if_pos hf2, List.map_map]
    apply List.map_congr_left
    intro q _
    by_cases hq : q.1 = k <;> simp [Function.comp, hq]
  · have hd1 : dictSet d k v = d ++ [(k, v)] := by
      rw [dictSet, if_neg hf]
    have hnone := Option.not_isSome_iff_eq_none.mp hf
    have hall := List.find?_eq_none.mp hnone
    have hf2 : ((d ++ [(k, v)]).find? (fun p => p.1 = k)).isSome := by
      apply List.find?_isSome.mpr
      exact ⟨(k, v), by simp, by simp⟩
    rw [hd1, dictSet, if_pos hf2, List.map_append]
    have h1 : d.map (fun p => if p.1 = k then (k, v) else p) = d := by
      have h2 := List.map_congr_left (l := d)
        (f := fun p => if p.1 = k then (k, v) else p) (g := id) ?_
      · simpa using h2
      · intro q hq
        have hqk : ¬ (q.1 = k) := by
          intro hqk
          exact absurd (by simpa using hqk) (hall q hq)
        simp [hqk]
    simp [h1]

/-- Every stored pair after a dict store is the new value or an old pair. -/
theorem mem_dictSet (d : List (String × List Nat)) (k : String) (v : List Nat)
    (p' : String × List Nat) (h : p' ∈ dictSet d k v) : p'.2 = v ∨ p' ∈ d := by
  by_cases hf : (d.find? (fun p => p.1 = k)).isSome
  · rw [dictSet, if_pos hf] at h
    rcases List.mem_map.mp h with ⟨q, hq, hq2⟩
    by_cases hqk : q.1 = k
    · left
      rw [← hq2]
      simp [hqk]
    · right
      rw [← hq2]
      simpa [hqk] using hq
  · rw [dictSet, if_neg hf] at h
    rcases List.mem_append.mp h with h1 | h1
    · right; exact h1
    · left
      have : p' = (k, v) := by simpa using h1
      rw [this]

/-- subscribe twice equals subscribe once — the raw idempotency equation. -/
theorem subscribe_idem (m : ConnectionManager) (ws : Nat) (t : String) :
    (m.subscribe ws t).subscribe ws t = m.subscribe ws t := by
  simp only [ConnectionManager.subscribe]
  rw [dictGet_dictSet]
  simp only [Option.getD_some]
  rw [setAdd_of_mem _ _ (mem_setAdd_self _ _), dictSet_idem]

/-- C8: a failing send during a broadcast removes only the failing
connection: every subscribed connection whose send succeeds receives the
event exactly once and stays subscribed, the failing connection receives
nothing and is removed from the live set and from every subscription set,
and delivery to the others is not aborted. -/
theorem c8_send_failure_is_contained (m : ConnectionManager) (topic : String)
    (subs : List Nat) (sendOk : Nat → Bool) (c d : Nat)
    (hsubs : dictGet m.subscriptions topic = some subs) (hnd : subs.Nodup)
    (hc : c ∈ subs) (hcok : sendOk c = true)
    (hd : d ∈ subs) (hdfail : sendOk d = false) :
    c ∈ (m.broadcast topic sendOk).2 ∧
    (m.broadcast topic sendOk).2.count c = 1 ∧
    d ∉ (m.broadcast topic sendOk).2 ∧
    d ∉ (m.broadcast topic sendOk).1.active_connections ∧
    (∀ p ∈ (m.broadcast topic sendOk).1.subscriptions, d ∉ p.2) ∧
    (∃ subs', dictGet (m.broadcast topic sendOk).1.subscriptions topic
      = some subs' ∧ c ∈ subs') := by
  have hb : m.broadcast topic sendOk =
      (disconnectAll m (subs.filter (fun x => !(sendOk x))), subs.filter sendOk) := by
    simp [ConnectionManager.broadcast, hsubs, broadcastLoop_eq]
  rw [hb]
  have hdL : d ∈ subs.filter (fun x => !(sendOk x)) :=
    List.mem_filter.mpr ⟨hd, by simp [hdfail]⟩
  refine ⟨List.mem_filter.mpr ⟨hc, hcok⟩, ?_, ?_, ?_, ?_, ?_⟩
  · exact List.count_eq_one_of_mem (hnd.filter _) (List.mem_filter.mpr ⟨hc, hcok⟩)
  · intro hmem
    have := (List.mem_filter.mp hmem).2
    rw [hdfail] at this
    cases this
  · rw [mem_active_disconnectAll]
    intro hcon
    exact hcon.2 hdL
  · intro p hp hdp
    exact (mem_snd_disconnectAll _ _ p hp d hdp).1 hdL
  · obtain ⟨s', hs', hmem⟩ :=
      dictGet_disconnectAll_of (subs.filter (fun x => !(sendOk x))) m topic subs hsubs
    refine ⟨s', hs', (hmem c).mpr ⟨hc, fun hcL => ?_⟩⟩
    have := (List.mem_filter.mp hcL).2
    rw [hcok] at this
    cases this

/-- C8 witness: the theorem applied to the concrete manager with
connections 1 and 2 subscribed to task_completed, where sending to 2 fails. -/
theorem c8_witness :
    1 ∈ (sampleManager.broadcast "task_completed" (fun n => n == 1)).2 ∧
    (sampleManager.broadcast "task_completed" (fun n => n == 1)).2.count 1 = 1 ∧
    2 ∉ (sampleManager.broadcast "task_completed" (fun n => n == 1)).2 ∧
    2 ∉ (sampleManager.broadcast "task_completed" (fun n => n == 1)).1.active_connections ∧
    (∀ p ∈ (sampleManager.broadcast "task_completed" (fun n => n == 1)).1.subscriptions,
      2 ∉ p.2) ∧
    dictGet (sampleManager.broadcast "task_completed"
      (fun n => n == 1)).1.subscriptions "task_completed" = some [1] := by
  have h := c8_send_failure_is_contained sampleManager "task_completed" [1, 2]
    (fun n => n == 1) 1 2 (by decide) (by decide) (by decide) (by decide)
    (by decide) (by decide)
  exact ⟨h.1, h.2.1, h.2.2.1, h.2.2.2.1, h.2.2.2.2.1, by decide⟩

/-- C10: subscription sets are mathematical sets, so subscribing the same
connection to the same topic twice leaves the manager exactly as subscribing
once does, and a single broadcast on that topic delivers at most one message
to that connection (given the set invariant that no subscription list holds
duplicates, which every manager built by the operations maintains). -/
theorem c10_subscribe_idempotent (m : ConnectionManager) (ws : Nat) (t : String)
    (sendOk : Nat → Bool) (hwf : ∀ p ∈ m.subscriptions, p.2.Nodup) :
    (m.subscribe ws t).subscribe ws t = m.subscribe ws t ∧
    ((m.subscribe ws t).broadcast t sendOk).2.count ws ≤ 1 := by
  refine ⟨subscribe_idem m ws t, ?_⟩
  have hg : dictGet (m.subscribe ws t).subscriptions t
      = some (setAdd ((dictGet m.subscriptions t).getD []) ws) := by
    unfold ConnectionManager.subscribe
    exact dictGet_dictSet _ _ _
  have hnd : (setAdd ((dictGet m.subscriptions t).getD []) ws).Nodup := by
    apply setAdd_nodup
    cases hgo : dictGet m.subscriptions t with
    | none => simp
    | some s =>
      obtain ⟨q, hq, hq2⟩ := dictGet_some_mem _ _ _ hgo
      simpa [hq2] using hwf q hq
  simp only [ConnectionManager.broadcast, hg, broadcastLoop_eq]
  calc ((setAdd ((dictGet m.subscriptions t).getD []) ws).filter sendOk).count ws
      ≤ (setAdd ((dictGet m.subscriptions t).getD []) ws).count ws :=
        (List.filter_sublist _).count_le _
    _ ≤ 1 := List.nodup_iff_count_le_one.mp hnd ws

/-- C10 witness: the theorem applied to the concrete manager, a fresh
connection 3 and the task_started topic. -/
theorem c10_witness :
    (sampleManager.subscribe 3 "task_started").subscribe 3 "task_started"
      = sampleManager.subscribe 3 "task_started" ∧
    ((sampleManager.subscribe 3 "task_started").broadcast "task_started"
      (fun _ => true)).2.count 3 ≤ 1 :=
  c10_subscribe_idempotent sampleManager 3 "task_started" (fun _ => true) (by decide)

end PersonalQ
